import Mathlib

/-!
Verification of the triangular fuzzy number program (`src/main.py`).

The program defines a class `FuzzyTriangle` holding `left`, `center`,
`right` together with the derived `left_spread` and `right_spread`;
its constructor validates `left < center < right`, and `derivative()`
builds a fresh instance with the center and both spreads doubled.
The module-level script constructs a base number from three inputs,
derives a second number, prints both, and renders a figure; a
`ValueError` from the constructor is caught at the outermost level
and printed as a single `Error:` line.

Real-valued scalars are embedded as rationals `ℚ`; the special-value
behaviour of IEEE floats (NaN comparisons) is embedded separately in
the `FloatModel` namespace for the one claim that needs it.
-/

namespace KBS

/-- The stored fields of a `FuzzyTriangle` instance: the three bounds
set directly by `__init__` and the two spreads it computes. -/
structure FuzzyTriangle where
  left : ℚ
  center : ℚ
  right : ℚ
  left_spread : ℚ
  right_spread : ℚ
  deriving DecidableEq

instance {ε α : Type} [DecidableEq ε] [DecidableEq α] :
    DecidableEq (Except ε α) := fun x y =>
  match x, y with
  | .error e1, .error e2 =>
    if h : e1 = e2 then .isTrue (by rw [h]) else .isFalse (by simp [h])
  | .ok a1, .ok a2 =>
    if h : a1 = a2 then .isTrue (by rw [h]) else .isFalse (by simp [h])
  | .error _, .ok _ => .isFalse (by simp)
  | .ok _, .error _ => .isFalse (by simp)

/-- The exact message of the `ValueError` raised by `FuzzyTriangle.__init__`. -/
def invalidMsg : String :=
  "Invalid fuzzy number triplet. Must satisfy: left < center < right."

/-- `FuzzyTriangle.__init__`: raises `ValueError` when
`left >= center or center >= right`, otherwise stores the three bounds
and the spreads `center - left` and `right - center`. -/
def FuzzyTriangle.init (left center right : ℚ) : Except String FuzzyTriangle :=
  if left ≥ center ∨ center ≥ right then
    .error invalidMsg
  else
    .ok { left := left, center := center, right := right,
          left_spread := center - left, right_spread := right - center }

/-- `FuzzyTriangle.derivative`: doubles the center and both spreads and
constructs a new instance from
`(new_center - new_left_spread, new_center, new_center + new_right_spread)`. -/
def FuzzyTriangle.derivative (t : FuzzyTriangle) : Except String FuzzyTriangle :=
  let new_center := 2 * t.center
  let new_left_spread := 2 * t.left_spread
  let new_right_spread := 2 * t.right_spread
  FuzzyTriangle.init (new_center - new_left_spread) new_center
    (new_center + new_right_spread)

/-- Explicit state-passing view of the method call `self.derivative()`:
the first component is the receiver after the call (the body only reads
`self.center`, `self.left_spread`, `self.right_spread` and assigns no
attribute), the second is the returned value. -/
def FuzzyTriangle.derivativeCall (t : FuzzyTriangle) :
    FuzzyTriangle × Except String FuzzyTriangle :=
  (t, t.derivative)

/-- `n` successive applications of `derivative`, propagating a
constructor error. -/
def FuzzyTriangle.iterDerivative : ℕ → FuzzyTriangle → Except String FuzzyTriangle
  | 0, t => .ok t
  | n + 1, t =>
    match t.derivative with
    | .error e => .error e
    | .ok d => FuzzyTriangle.iterDerivative n d

/-- The ordering invariant `left < center < right`. -/
def FuzzyTriangle.Ordered (t : FuzzyTriangle) : Prop :=
  t.left < t.center ∧ t.center < t.right

instance (t : FuzzyTriangle) : Decidable t.Ordered := by
  unfold FuzzyTriangle.Ordered; infer_instance

/-- The spread fields agree with the bounds, as `__init__` sets them. -/
def FuzzyTriangle.SpreadsDerived (t : FuzzyTriangle) : Prop :=
  t.left_spread = t.center - t.left ∧ t.right_spread = t.right - t.center

instance (t : FuzzyTriangle) : Decidable t.SpreadsDerived := by
  unfold FuzzyTriangle.SpreadsDerived; infer_instance

/-- All five fields scaled by 2: the value `derivative` produces from a
well-formed instance. -/
def FuzzyTriangle.double (t : FuzzyTriangle) : FuzzyTriangle :=
  { left := 2 * t.left, center := 2 * t.center, right := 2 * t.right,
    left_spread := 2 * t.left_spread, right_spread := 2 * t.right_spread }

/-- `FuzzyTriangle.__repr__`: `FuzzyTriangle(left=..., center=..., right=...)`
(numeric rendering differs from Python float formatting, which no claim
depends on). -/
def FuzzyTriangle.reprStr (t : FuzzyTriangle) : String :=
  "FuzzyTriangle(left=" ++ toString t.left ++ ", center=" ++ toString t.center ++
    ", right=" ++ toString t.right ++ ")"

/-- The module-level script after the three inputs have been parsed:
construct, print, derive, print, render.  Returns the printed lines and
whether the figure was rendered; a `ValueError` escaping to the
outermost `except` yields a final line `Error: <message>` and no figure. -/
def mainRun (a b c : ℚ) : List String × Bool :=
  match FuzzyTriangle.init a b c with
  | .error e => (["Error: " ++ e], false)
  | .ok fuzzy_point =>
    match fuzzy_point.derivative with
    | .error e =>
      (["Created fuzzy triangular number: " ++ fuzzy_point.reprStr,
        "Error: " ++ e], false)
    | .ok fuzzy_derivative =>
      (["Created fuzzy triangular number: " ++ fuzzy_point.reprStr,
        "Fuzzy derivative at the fuzzy point: " ++ fuzzy_derivative.reprStr],
       true)

namespace FloatModel

/-- Python float values relevant to the constructor guard: NaN or a
finite value (embedded as a rational). -/
inductive PyFloat
  | nan
  | fin (q : ℚ)
  deriving DecidableEq

/-- IEEE-754 `>=`: false whenever either operand is NaN. -/
def PyFloat.ge : PyFloat → PyFloat → Bool
  | .fin x, .fin y => decide (x ≥ y)
  | _, _ => false

/-- IEEE-754 `<`: false whenever either operand is NaN. -/
def PyFloat.lt : PyFloat → PyFloat → Bool
  | .fin x, .fin y => decide (x < y)
  | _, _ => false

/-- IEEE-754 subtraction: NaN-propagating. -/
def PyFloat.sub : PyFloat → PyFloat → PyFloat
  | .fin x, .fin y => .fin (x - y)
  | _, _ => .nan

/-- `FuzzyTriangle` fields over the float model. -/
structure FuzzyTriangleF where
  left : PyFloat
  center : PyFloat
  right : PyFloat
  left_spread : PyFloat
  right_spread : PyFloat
  deriving DecidableEq

/-- `FuzzyTriangle.__init__` over the float model: the guard
`left >= center or center >= right` uses IEEE comparisons. -/
def FuzzyTriangleF.init (left center right : PyFloat) :
    Except String FuzzyTriangleF :=
  if PyFloat.ge left center || PyFloat.ge center right then
    .error invalidMsg
  else
    .ok { left := left, center := center, right := right,
          left_spread := PyFloat.sub center left,
          right_spread := PyFloat.sub right center }

end FloatModel

/-! ### Helper lemmas -/

lemma init_ok_of_lt {a b c : ℚ} (h1 : a < b) (h2 : b < c) :
    FuzzyTriangle.init a b c =
      .ok { left := a, center := b, right := c,
            left_spread := b - a, right_spread := c - b } := by
  have hc : ¬(a ≥ b ∨ b ≥ c) := by push_neg; exact ⟨h1, h2⟩
  simp [FuzzyTriangle.init, hc]

lemma init_error_of_not_lt {a b c : ℚ} (h : a ≥ b ∨ b ≥ c) :
    FuzzyTriangle.init a b c = .error invalidMsg := by
  simp [FuzzyTriangle.init, h]

lemma init_ok_inv {a b c : ℚ} {t : FuzzyTriangle}
    (h : FuzzyTriangle.init a b c = .ok t) :
    t.SpreadsDerived ∧ t.Ordered ∧ t.left = a ∧ t.center = b ∧ t.right = c := by
  by_cases hc : a ≥ b ∨ b ≥ c
  · rw [init_error_of_not_lt hc] at h
    exact absurd h (by simp)
  · push_neg at hc
    rw [init_ok_of_lt hc.1 hc.2] at h
    simp only [Except.ok.injEq] at h
    subst h
    exact ⟨⟨rfl, rfl⟩, ⟨hc.1, hc.2⟩, rfl, rfl, rfl⟩

lemma double_spreadsDerived {t : FuzzyTriangle} (hs : t.SpreadsDerived) :
    t.double.SpreadsDerived := by
  obtain ⟨hl, hr⟩ := hs
  constructor
  · show 2 * t.left_spread = 2 * t.center - 2 * t.left
    rw [hl]; ring
  · show 2 * t.right_spread = 2 * t.right - 2 * t.center
    rw [hr]; ring

lemma double_ordered {t : FuzzyTriangle} (ho : t.Ordered) :
    t.double.Ordered := by
  obtain ⟨h1, h2⟩ := ho
  constructor
  · show 2 * t.left < 2 * t.center
    linarith
  · show 2 * t.center < 2 * t.right
    linarith

lemma derivative_eq_double {t : FuzzyTriangle}
    (hs : t.SpreadsDerived) (ho : t.Ordered) :
    t.derivative = .ok t.double := by
  obtain ⟨hl, hr⟩ := hs
  obtain ⟨h1, h2⟩ := ho
  have hls : 0 < t.left_spread := by rw [hl]; linarith
  have hrs : 0 < t.right_spread := by rw [hr]; linarith
  show FuzzyTriangle.init (2 * t.center - 2 * t.left_spread) (2 * t.center)
      (2 * t.center + 2 * t.right_spread) = .ok t.double
  rw [init_ok_of_lt (by linarith) (by linarith)]
  have e3 : 2 * t.center - (2 * t.center - 2 * t.left_spread) =
      2 * t.left_spread := by ring
  have e4 : 2 * t.center + 2 * t.right_spread - 2 * t.center =
      2 * t.right_spread := by ring
  have e1 : 2 * t.center - 2 * t.left_spread = 2 * t.left := by rw [hl]; ring
  have e2 : 2 * t.center + 2 * t.right_spread = 2 * t.right := by rw [hr]; ring
  rw [e3, e4, e1, e2]
  rfl

lemma iterDerivative_ok (n : ℕ) (t : FuzzyTriangle)
    (hs : t.SpreadsDerived) (ho : t.Ordered) :
    FuzzyTriangle.iterDerivative n t =
      .ok { left := 2 ^ n * t.left, center := 2 ^ n * t.center,
            right := 2 ^ n * t.right,
            left_spread := 2 ^ n * t.left_spread,
            right_spread := 2 ^ n * t.right_spread } := by
  induction n generalizing t with
  | zero =>
    simp only [FuzzyTriangle.iterDerivative, pow_zero, one_mul]
  | succ n ih =>
    rw [FuzzyTriangle.iterDerivative, derivative_eq_double hs ho]
    show FuzzyTriangle.iterDerivative n t.double = _
    rw [ih t.double (double_spreadsDerived hs) (double_ordered ho)]
    congr 1
    simp only [FuzzyTriangle.double, FuzzyTriangle.mk.injEq]
    refine ⟨?_, ?_, ?_, ?_, ?_⟩ <;> ring

lemma init_one_two_three :
    FuzzyTriangle.init 1 2 3 =
      .ok { left := 1, center := 2, right := 3,
            left_spread := 1, right_spread := 1 } := by
  rw [init_ok_of_lt (by norm_num) (by norm_num)]
  norm_num

lemma derivative_one_two_three :
    FuzzyTriangle.derivative
      { left := 1, center := 2, right := 3,
        left_spread := 1, right_spread := 1 } =
      .ok { left := 2, center := 4, right := 6,
            left_spread := 2, right_spread := 2 } := by
  rw [derivative_eq_double ⟨by norm_num, by norm_num⟩ ⟨by norm_num, by norm_num⟩]
  norm_num [FuzzyTriangle.double]

/-! ### Claims -/

/-- C1: for every valid triangular fuzzy number constructed from `a < b < c`,
`derivative()` returns a new number with center `2*b`, left_spread `2*(b-a)`,
right_spread `2*(c-b)`; equivalently its triplet `(left, center, right)`
equals `(2*a, 2*b, 2*c)` componentwise. -/
theorem C1_derivative_scales_triplet (a b c : ℚ) (h1 : a < b) (h2 : b < c) :
    ∃ t d, FuzzyTriangle.init a b c = .ok t ∧ t.derivative = .ok d ∧
      d.center = 2 * b ∧ d.left_spread = 2 * (b - a) ∧
      d.right_spread = 2 * (c - b) ∧ d.left = 2 * a ∧ d.right = 2 * c := by
  refine ⟨_, _, init_ok_of_lt h1 h2,
    derivative_eq_double ⟨rfl, rfl⟩ ⟨h1, h2⟩, rfl, rfl, rfl, rfl, rfl⟩

/-- Witness for C1 at the concrete triplet `(1, 2, 3)`. -/
theorem C1_witness :
    ∃ t d, FuzzyTriangle.init 1 2 3 = .ok t ∧ t.derivative = .ok d ∧
      d.center = 2 * 2 ∧ d.left_spread = 2 * (2 - 1) ∧
      d.right_spread = 2 * (3 - 2) ∧ d.left = 2 * 1 ∧ d.right = 2 * 3 :=
  C1_derivative_scales_triplet 1 2 3 (by norm_num) (by norm_num)

/-- C2: construction from three reals fails if and only if the strict
ordering `left < center < right` fails (including the equality cases), and
the error message is exactly
"Invalid fuzzy number triplet. Must satisfy: left < center < right." -/
theorem C2_init_error_iff (a b c : ℚ) (e : String) :
    (FuzzyTriangle.init a b c = .error e ↔
      e = invalidMsg ∧ ¬(a < b ∧ b < c)) ∧
    invalidMsg =
      "Invalid fuzzy number triplet. Must satisfy: left < center < right." := by
  refine ⟨?_, rfl⟩
  by_cases hc : a ≥ b ∨ b ≥ c
  · have hn : ¬(a < b ∧ b < c) := by
      rintro ⟨hab, hbc⟩
      rcases hc with h | h
      · exact absurd hab (not_lt.mpr h)
      · exact absurd hbc (not_lt.mpr h)
    rw [init_error_of_not_lt hc]
    simp only [Except.error.injEq]
    exact ⟨fun he => ⟨he.symm, hn⟩, fun hh => hh.1.symm⟩
  · push_neg at hc
    rw [init_ok_of_lt hc.1 hc.2]
    constructor
    · intro h
      exact absurd h (by simp)
    · rintro ⟨-, hn⟩
      exact absurd ⟨hc.1, hc.2⟩ hn

/-- C3: for `a < b < c`, construction succeeds and stores `left = a`,
`center = b`, `right = c`, `left_spread = b - a`, `right_spread = c - b`. -/
theorem C3_init_success_fields (a b c : ℚ) (h1 : a < b) (h2 : b < c) :
    FuzzyTriangle.init a b c =
      .ok { left := a, center := b, right := c,
            left_spread := b - a, right_spread := c - b } :=
  init_ok_of_lt h1 h2

/-- Witness for C3 at the concrete triplet `(1, 2, 3)`. -/
theorem C3_witness :
    FuzzyTriangle.init 1 2 3 =
      .ok { left := 1, center := 2, right := 3,
            left_spread := 2 - 1, right_spread := 3 - 2 } :=
  C3_init_success_fields 1 2 3 (by norm_num) (by norm_num)

/-- C4: for every instance produced by a successful construction,
`derivative()` never raises: the construction it performs succeeds. -/
theorem C4_derivative_never_raises (a b c : ℚ) (t : FuzzyTriangle)
    (ht : FuzzyTriangle.init a b c = .ok t) :
    ∃ d, t.derivative = .ok d := by
  obtain ⟨hs, ho, -, -, -⟩ := init_ok_inv ht
  exact ⟨t.double, derivative_eq_double hs ho⟩

/-- Witness for C4 at the instance constructed from `(1, 2, 3)`. -/
theorem C4_witness :
    ∃ d, FuzzyTriangle.derivative
      { left := 1, center := 2, right := 3,
        left_spread := 1, right_spread := 1 } = .ok d :=
  C4_derivative_never_raises 1 2 3 _ init_one_two_three

/-- C5: every constructed instance satisfies `left < center < right`:
after any successful construction, after any successful `derivative()`
call, and the receiver of `derivative()` is never mutated. -/
theorem C5_invariant_all_instances :
    (∀ (a b c : ℚ) (t : FuzzyTriangle),
        FuzzyTriangle.init a b c = .ok t → t.Ordered) ∧
    (∀ t d : FuzzyTriangle, t.derivative = .ok d → d.Ordered) ∧
    (∀ t : FuzzyTriangle, (t.derivativeCall).1 = t) := by
  refine ⟨fun a b c t ht => (init_ok_inv ht).2.1,
    fun t d hd => ?_, fun t => rfl⟩
  exact (init_ok_inv hd).2.1

/-- Witness for C5 at the instance constructed from `(1, 2, 3)`. -/
theorem C5_witness :
    FuzzyTriangle.Ordered
      { left := 1, center := 2, right := 3,
        left_spread := 1, right_spread := 1 } :=
  C5_invariant_all_instances.1 1 2 3 _ init_one_two_three

/-- C6: `derivative()` is pure with respect to its receiver: the call
leaves all five stored fields unchanged and its return value is exactly
the freshly constructed derivative. -/
theorem C6_derivative_pure (t : FuzzyTriangle) :
    (t.derivativeCall).1.left = t.left ∧
    (t.derivativeCall).1.center = t.center ∧
    (t.derivativeCall).1.right = t.right ∧
    (t.derivativeCall).1.left_spread = t.left_spread ∧
    (t.derivativeCall).1.right_spread = t.right_spread ∧
    (t.derivativeCall).2 = t.derivative :=
  ⟨rfl, rfl, rfl, rfl, rfl, rfl⟩

/-- C7: when the base construction fails validation, the run prints
exactly one line, prefixed "Error:" and carrying the validation message,
computes no derivative and renders no figure. -/
theorem C7_failure_output (a b c : ℚ) (h : ¬(a < b ∧ b < c)) :
    mainRun a b c = (["Error: " ++ invalidMsg], false) := by
  have hc : a ≥ b ∨ b ≥ c := by
    by_contra hn
    push_neg at hn
    exact h ⟨hn.1, hn.2⟩
  unfold mainRun
  rw [init_error_of_not_lt hc]

/-- Witness for C7 at the concrete failing triplet `(2, 2, 3)`. -/
theorem C7_witness :
    mainRun 2 2 3 = (["Error: " ++ invalidMsg], false) :=
  C7_failure_output 2 2 3 (by norm_num)

/-- C8: the concrete input `(1, 2, 3)` constructs `left=1, center=2,
right=3`, and its `derivative()` yields `left=2, center=4, right=6`. -/
theorem C8_concrete_one_two_three :
    FuzzyTriangle.init 1 2 3 =
      .ok { left := 1, center := 2, right := 3,
            left_spread := 1, right_spread := 1 } ∧
    FuzzyTriangle.derivative
      { left := 1, center := 2, right := 3,
        left_spread := 1, right_spread := 1 } =
      .ok { left := 2, center := 4, right := 6,
            left_spread := 2, right_spread := 2 } :=
  ⟨init_one_two_three, derivative_one_two_three⟩

/-- C9: applying `derivative()` twice to the instance constructed from
`a < b < c` yields the triplet `(4*a, 4*b, 4*c)`, and `n` applications
yield `(2^n * a, 2^n * b, 2^n * c)`. -/
theorem C9_iterated_derivative (a b c : ℚ) (t : FuzzyTriangle)
    (ht : FuzzyTriangle.init a b c = .ok t) :
    (∃ d, FuzzyTriangle.iterDerivative 2 t = .ok d ∧
      d.left = 4 * a ∧ d.center = 4 * b ∧ d.right = 4 * c) ∧
    ∀ n : ℕ, ∃ d, FuzzyTriangle.iterDerivative n t = .ok d ∧
      d.left = 2 ^ n * a ∧ d.center = 2 ^ n * b ∧ d.right = 2 ^ n * c := by
  obtain ⟨hs, ho, ha, hb, hc⟩ := init_ok_inv ht
  have key : ∀ n : ℕ, ∃ d, FuzzyTriangle.iterDerivative n t = .ok d ∧
      d.left = 2 ^ n * a ∧ d.center = 2 ^ n * b ∧ d.right = 2 ^ n * c := by
    intro n
    refine ⟨_, iterDerivative_ok n t hs ho, ?_, ?_, ?_⟩
    · show 2 ^ n * t.left = 2 ^ n * a
      rw [ha]
    · show 2 ^ n * t.center = 2 ^ n * b
      rw [hb]
    · show 2 ^ n * t.right = 2 ^ n * c
      rw [hc]
  refine ⟨?_, key⟩
  obtain ⟨d, hd, h1, h2, h3⟩ := key 2
  refine ⟨d, hd, ?_, ?_, ?_⟩
  · rw [h1]; norm_num
  · rw [h2]; norm_num
  · rw [h3]; norm_num

/-- Witness for C9 at the instance constructed from `(1, 2, 3)`. -/
theorem C9_witness :
    ∃ d, FuzzyTriangle.iterDerivative 2
      { left := 1, center := 2, right := 3,
        left_spread := 1, right_spread := 1 } = .ok d ∧
      d.left = 4 * 1 ∧ d.center = 4 * 2 ∧ d.right = 4 * 3 :=
  (C9_iterated_derivative 1 2 3 _ init_one_two_three).1

/-- C10: with IEEE float semantics, a NaN argument makes both guard
comparisons false, so construction with `(NaN, 1.0, 2.0)` succeeds and
creates an instance violating the ordering invariant. -/
theorem C10_nan_bypasses_validation :
    FloatModel.FuzzyTriangleF.init .nan (.fin 1) (.fin 2) =
      .ok { left := .nan, center := .fin 1, right := .fin 2,
            left_spread := .nan, right_spread := .fin 1 } ∧
    FloatModel.PyFloat.ge .nan (.fin 1) = false ∧
    FloatModel.PyFloat.ge (.fin 1) (.fin 2) = false ∧
    FloatModel.PyFloat.lt .nan (.fin 1) = false := by
  have hg2 : FloatModel.PyFloat.ge (.fin 1) (.fin 2) = false := by
    show decide ((1 : ℚ) ≥ 2) = false
    exact decide_eq_false (by norm_num)
  refine ⟨?_, rfl, hg2, rfl⟩
  have hne : ¬((FloatModel.PyFloat.ge .nan (.fin 1) ||
      FloatModel.PyFloat.ge (.fin 1) (.fin 2)) = true) := by
    rw [hg2]
    simp [FloatModel.PyFloat.ge]
  unfold FloatModel.FuzzyTriangleF.init
  rw [if_neg hne]
  simp only [FloatModel.PyFloat.sub]
  norm_num

end KBS
